import Mathlib

/-!
Verification of the transcription pipeline in `src/main.py`
(`Worker.run`, lines 118-240) against its natural-language specification.

The worker is embedded shallowly: the pipeline body becomes the pure
function `runWorker : Env → RunResult`.  `Env` supplies everything the
worker observes from outside — the chosen input path, the resolved
configuration, and the behaviour of the external collaborators
(filesystem, media engine, object store, recognition service), each
modelled as the data the worker sees from it.  `RunResult` records the
observable effects: the Qt signals emitted in order and every call made
to a collaborator.  The `try/except` wrapper around the whole body turns
any raised exception into a single `error` signal, so every failing
branch of `runWorker` ends in `Event.errorMsg`.
-/

set_option autoImplicit false

namespace SpeechToText

/-- Python `str.rfind` helper: index of the last occurrence of `c`,
scanning with current index `i` and best index found so far. -/
def rfindAux (c : Char) : List Char → Int → Int → Int
  | [], _, best => best
  | x :: xs, i, best => rfindAux c xs (i + 1) (if x = c then i else best)

/-- Python `str.rfind`: index of the last occurrence of `c` in `l`,
`-1` when `c` does not occur. -/
def rfind (l : List Char) (c : Char) : Int :=
  rfindAux c l 0 (-1)

/-- Python `str.lower()` restricted to its ASCII action, which is all the
worker relies on when case-normalizing the extension (src/main.py
line 128): lowercase every character. -/
def strToLower (s : String) : String :=
  String.mk (s.data.map Char.toLower)

/-- Python `os.path.splitext` (posix rules, as CPython implements it): split at
the last dot, provided it lies after the last `/` and the characters of
the final component before it are not all dots (so `".bashrc"` has no
extension).  Used at src/main.py line 127. -/
def splitext (p : String) : String × String :=
  let l := p.data
  let sepIndex := rfind l '/'
  let dotIndex := rfind l '.'
  if sepIndex < dotIndex then
    let fname := (l.drop (sepIndex + 1).toNat).take (dotIndex - sepIndex - 1).toNat
    if fname.any (fun ch => ch ≠ '.') then
      (String.mk (l.take dotIndex.toNat), String.mk (l.drop dotIndex.toNat))
    else (p, "")
  else (p, "")

/-- Python `os.path.basename` (posix): everything after the last `/`.
Used at src/main.py line 176. -/
def basename (p : String) : String :=
  String.mk (p.data.drop (rfind p.data '/' + 1).toNat)

/-- The regex match `re.match(r"gs://([^/]+)/(.*)", uri)` of
src/main.py line 215, returning the two captured groups: the prefix
`gs://`, then a nonempty run of non-`/` characters (group 1), then `/`,
then group 2 — greedy `.`, which does not cross a newline. -/
def parseGsUri (s : String) : Option (String × String) :=
  match s.data with
  | 'g' :: 's' :: ':' :: '/' :: '/' :: rest =>
    let bucket := rest.takeWhile (fun c => c ≠ '/')
    if bucket.isEmpty then none
    else
      match rest.drop bucket.length with
      | '/' :: obj => some (String.mk bucket, String.mk (obj.takeWhile (fun c => c ≠ '\n')))
      | _ => none
  | _ => none

/-- The supported video extensions (src/main.py line 132). -/
def videoExtensions : List String :=
  [".mp4", ".mov", ".avi", ".mkv", ".flv", ".wmv"]

/-- The supported audio extensions (src/main.py line 133). -/
def audioExtensions : List String :=
  [".mp3", ".wav", ".flac", ".ogg", ".aac", ".m4a"]

/-- One ranked alternative of a recognized segment. -/
structure SpeechAlternative where
  transcript : String
deriving DecidableEq

/-- One segment of the results document, with its ranked alternatives. -/
structure SpeechResult where
  alternatives : List SpeechAlternative
deriving DecidableEq

/-- The Qt signals the worker emits (src/main.py lines 110-112). -/
inductive Event where
  | progress (n : Nat)
  | errorMsg (msg : String)
  | finishedMsg (msg : String)
deriving DecidableEq

/-- Outcome of `operation.result(timeout=3600)` (src/main.py line 206):
the job reaches a terminal state in time and succeeds, the call raises
because the job failed, or the call raises because the timeout elapsed.
Each raising case carries `str(e)`. -/
inductive JobOutcome where
  | succeeded
  | failed (msg : String)
  | timedOut (msg : String)
deriving DecidableEq

/-- One invocation of the media engine's write-audio capability,
recording exactly the parameters the worker passes at src/main.py
lines 139-151: the target path, `fps=16000` and `codec='pcm_s16le'`.
No channel-count parameter appears in the call. -/
structure ConvCall where
  target : String
  fps : Nat
  codec : String
deriving DecidableEq

/-- Properties of the waveform file the media engine leaves at
`c.target` when the call succeeds.  The engine honours the parameters
the call pins down — the sample rate is the requested `fps` and the
sample format the requested codec — while the channel count, which the
call leaves unspecified, is whatever the engine produces for the given
source (`env` field `convChannels`). -/
structure WaveFile where
  path : String
  sampleRate : Nat
  codec : String
  channels : Nat
deriving DecidableEq

/-- The `BatchRecognizeRequest` dictionary built at src/main.py
lines 189-200. -/
structure RecognitionRequest where
  recognizer : String
  autoDecoding : Bool
  languageCodes : List String
  model : String
  fileUris : List String
  outputUri : String
deriving DecidableEq

/-- The resolved configuration, as the configuration provider supplies
it: the credential path from `GOOGLE_APPLICATION_CREDENTIALS`, and the
input/output container names from `GCS_INPUT_BUCKET` /
`GCS_OUTPUT_BUCKET` (all loaded from `env.txt` into the process
environment by `load_env`, src/main.py lines 60-88).  `none` models an
unset variable. -/
structure Config where
  googleApplicationCredentials : Option String
  gcsInputBucket : Option String
  gcsOutputBucket : Option String
deriving DecidableEq

/-- The environment one worker run executes against. -/
structure Env where
  /-- The chosen input media path. -/
  inputFile : String
  /-- The resolved configuration. -/
  config : Config
  /-- Result of `os.path.exists` on the credential path (src/main.py line 159). -/
  credFileExists : String → Bool
  /-- Whether `from_service_account_file` succeeds (line 163). -/
  credLoadOk : Bool
  /-- Message `str(e)` when credential loading raises. -/
  credLoadErr : String
  /-- Value of `credentials.project_id` (line 164). -/
  projectId : String
  /-- Whether the media engine call succeeds (lines 139-151). -/
  convOk : Bool
  /-- Message `str(e)` when the media engine raises. -/
  convErr : String
  /-- Channel count of the waveform the engine produces; the worker
  passes no channel parameter, so this is engine-determined. -/
  convChannels : Nat
  /-- Whether `blob.upload_from_filename` succeeds (line 178). -/
  uploadOk : Bool
  /-- Message `str(e)` when the upload raises. -/
  uploadErr : String
  /-- Hex digest `uuid.uuid4().hex` drawn for the staged object name (line 176). -/
  uuidUpload : String
  /-- Hex digest `uuid.uuid4().hex` drawn for the output object name (line 183). -/
  uuidOutput : String
  /-- Whether `client.batch_recognize` accepts the request (line 204). -/
  submitOk : Bool
  /-- Message `str(e)` when submission raises. -/
  submitErr : String
  /-- Outcome of `operation.result(timeout=3600)` (line 206). -/
  jobOutcome : JobOutcome
  /-- Lookup `response.results.get(uri)` followed by `.uri` (lines 210-215):
  the reported output address for each input address, `none` when the
  map has no usable entry for the key. -/
  results : String → Option String
  /-- Whether `download_as_bytes` succeeds (line 222). -/
  downloadOk : Bool
  /-- Message `str(e)` when the download raises. -/
  downloadErr : String
  /-- Parse result of `BatchRecognizeResults.from_json` with unknown fields ignored
  (line 223): the ordered segments, `none` when parsing raises. -/
  parsed : Option (List SpeechResult)
  /-- Message `str(e)` when parsing raises. -/
  parseErr : String
  /-- Whether `open(output_file, "w", encoding="utf-8")` and the write
  succeed (lines 231-232). -/
  writeOk : Bool
  /-- Message `str(e)` when the write raises. -/
  writeErr : String
  /-- Whether `os.remove(temp_audio_file)` succeeds (line 236).  The
  `os.path.exists` guard at line 235 holds on this path, since the
  conversion created the file and nothing has removed it since; the
  remove itself sits inside the `try` and can still raise (file held
  open elsewhere, permission change, a concurrent delete between the
  guard and the call). -/
  removeOk : Bool
  /-- Message `str(e)` when the remove raises. -/
  removeErr : String

/-- Observable outcome of one `Worker.run`: the emitted signals in
order and the calls made to the external collaborators.
`written = some (path, text)` records the final transcript write, which
opens `path` in mode `"w"` (create or truncate, i.e. overwrite) with
UTF-8 encoding and writes exactly `text` (src/main.py lines 230-232).
`uploadCalls` and `downloadCalls` carry `(bucket, object)` pairs. -/
structure RunResult where
  events : List Event
  convCalls : List ConvCall := []
  uploadCalls : List (String × String) := []
  submitCalls : List RecognitionRequest := []
  waitTimeoutSeconds : Option Nat := none
  downloadCalls : List (String × String) := []
  written : Option (String × String) := none
  tempFileRemoved : Bool := false

/-- Message `str(e)` for the `IndexError` raised by `result.alternatives[0]`
on a segment with no alternatives (src/main.py line 227). -/
def indexErrorMsg : String := "list index out of range"

/-- src/main.py line 153. -/
def unsupportedMsg : String :=
  "Unsupported file type. Please select a valid audio or video file."

/-- src/main.py line 160. -/
def missingCredMsg : String := "Missing or invalid GCP credentials file."

/-- src/main.py line 170. -/
def missingBucketMsg : String :=
  "Missing GCS_INPUT_BUCKET or GCS_OUTPUT_BUCKET settings in env.txt."

/-- src/main.py line 212. -/
def noResultsMsg : String := "No results found for the input file."

/-- src/main.py line 217. -/
def badOutputUriMsg : String := "Failed to parse output URI."

/-- The transcript-assembly loop of src/main.py lines 225-227: walk the
ordered segments, appending `alternatives[0].transcript + "\n"` to the
accumulated transcript; indexing an empty `alternatives` raises
`IndexError`, modelled as `none`. -/
def assembleTranscript : List SpeechResult → Option String
  | [] => some ""
  | r :: rs =>
    match r.alternatives with
    | [] => none
    | a :: _ =>
      match assembleTranscript rs with
      | none => none
      | some t => some (a.transcript ++ "\n" ++ t)

/-- The waveform file produced by a successful conversion call: the
engine honours the requested target path, sample rate and codec, and
chooses the channel count itself since the call does not constrain it. -/
def convOutput (env : Env) (c : ConvCall) : WaveFile :=
  { path := c.target, sampleRate := c.fps, codec := c.codec,
    channels := env.convChannels }

/-- The input container identifier the worker actually uses
(src/main.py line 167): a string literal, not the configured
`GCS_INPUT_BUCKET`. -/
def gcsInputBucket : String := "speech_to_text_python"

/-- The output container identifier the worker actually uses
(src/main.py line 168): a string literal, not the configured
`GCS_OUTPUT_BUCKET`. -/
def gcsOutputBucket : String := "speech_to_text_python"

/-- Value `base` of src/main.py line 127. -/
def baseOf (env : Env) : String := (splitext env.inputFile).1

/-- Value `ext` of src/main.py lines 127-128: the extension, case-normalized. -/
def extOf (env : Env) : String := strToLower (splitext env.inputFile).2

/-- Value `temp_audio_file` of src/main.py line 129. -/
def tempPathOf (env : Env) : String := baseOf env ++ "_temp.wav"

/-- The media-engine invocation of src/main.py lines 139-151: target
path, `fps=16000`, `codec='pcm_s16le'` (identical in the video and the
audio branch). -/
def convCallOf (env : Env) : ConvCall :=
  { target := tempPathOf env, fps := 16000, codec := "pcm_s16le" }

/-- Value `unique_filename` of src/main.py line 176. -/
def uniqueFilenameOf (env : Env) : String :=
  basename (tempPathOf env) ++ "-" ++ env.uuidUpload ++ ".wav"

/-- Value `audio_uri` of src/main.py line 179. -/
def audioUriOf (env : Env) : String :=
  "gs://" ++ gcsInputBucket ++ "/" ++ uniqueFilenameOf env

/-- Value `output_filename` of src/main.py line 183. -/
def outputFilenameOf (env : Env) : String :=
  "transcript-" ++ env.uuidOutput ++ ".json"

/-- Value `gcs_output_uri` of src/main.py line 184. -/
def gcsOutputUriOf (env : Env) : String :=
  "gs://" ++ gcsOutputBucket ++ "/" ++ outputFilenameOf env

/-- The `BatchRecognizeRequest` of src/main.py lines 188-200. -/
def requestOf (env : Env) : RecognitionRequest :=
  { recognizer := "projects/" ++ env.projectId ++ "/locations/global/recognizers/_",
    autoDecoding := true,
    languageCodes := ["id-ID"],
    model := "long",
    fileUris := [audioUriOf env],
    outputUri := gcsOutputUriOf env }

/-- Value `output_file` of src/main.py line 230. -/
def outputPathOf (env : Env) : String := baseOf env ++ ".txt"

/-- src/main.py lines 229-237: emit 90, write the transcript to
`output_file` (open mode `"w"`, UTF-8), emit 100, remove the temporary
waveform, signal finished.  A raised write error surfaces as the error
signal via the surrounding `except`.  The `os.remove` at line 236 also
sits inside the `try`: if it raises, the file has already been written
and every tick up to 100 already emitted, and the error signal follows
instead of finished. -/
def writeStage (env : Env) (bo : String × String) (transcript : String) : RunResult :=
  if env.writeOk = false then
    { events := [.progress 5, .progress 33, .progress 40, .progress 42, .progress 50,
                 .progress 55, .progress 75, .progress 90, .errorMsg env.writeErr],
      convCalls := [convCallOf env],
      uploadCalls := [(gcsInputBucket, uniqueFilenameOf env)],
      submitCalls := [requestOf env],
      waitTimeoutSeconds := some 3600,
      downloadCalls := [bo] }
  else if env.removeOk = false then
    { events := [.progress 5, .progress 33, .progress 40, .progress 42, .progress 50,
                 .progress 55, .progress 75, .progress 90, .progress 100,
                 .errorMsg env.removeErr],
      convCalls := [convCallOf env],
      uploadCalls := [(gcsInputBucket, uniqueFilenameOf env)],
      submitCalls := [requestOf env],
      waitTimeoutSeconds := some 3600,
      downloadCalls := [bo],
      written := some (outputPathOf env, transcript),
      tempFileRemoved := false }
  else
    { events := [.progress 5, .progress 33, .progress 40, .progress 42, .progress 50,
                 .progress 55, .progress 75, .progress 90, .progress 100,
                 .finishedMsg ("Transcription saved to " ++ outputPathOf env)],
      convCalls := [convCallOf env],
      uploadCalls := [(gcsInputBucket, uniqueFilenameOf env)],
      submitCalls := [requestOf env],
      waitTimeoutSeconds := some 3600,
      downloadCalls := [bo],
      written := some (outputPathOf env, transcript),
      tempFileRemoved := true }

/-- src/main.py lines 222-227: download the output object `bo`, parse
it tolerantly, and run the assembly loop; each raising step surfaces as
the error signal. -/
def downloadStage (env : Env) (bo : String × String) : RunResult :=
  if env.downloadOk = false then
    { events := [.progress 5, .progress 33, .progress 40, .progress 42, .progress 50,
                 .progress 55, .progress 75, .errorMsg env.downloadErr],
      convCalls := [convCallOf env],
      uploadCalls := [(gcsInputBucket, uniqueFilenameOf env)],
      submitCalls := [requestOf env],
      waitTimeoutSeconds := some 3600,
      downloadCalls := [bo] }
  else
    match env.parsed with
    | none =>
      { events := [.progress 5, .progress 33, .progress 40, .progress 42, .progress 50,
                   .progress 55, .progress 75, .errorMsg env.parseErr],
        convCalls := [convCallOf env],
        uploadCalls := [(gcsInputBucket, uniqueFilenameOf env)],
        submitCalls := [requestOf env],
        waitTimeoutSeconds := some 3600,
        downloadCalls := [bo] }
    | some results =>
      match assembleTranscript results with
      | none =>
        { events := [.progress 5, .progress 33, .progress 40, .progress 42, .progress 50,
                     .progress 55, .progress 75, .errorMsg indexErrorMsg],
          convCalls := [convCallOf env],
          uploadCalls := [(gcsInputBucket, uniqueFilenameOf env)],
          submitCalls := [requestOf env],
          waitTimeoutSeconds := some 3600,
          downloadCalls := [bo] }
      | some transcript => writeStage env bo transcript

/-- src/main.py lines 209-221: look up the per-file result for
`audio_uri`, parse its reported output address as `gs://bucket/object`,
and proceed to the download. -/
def resultStage (env : Env) : RunResult :=
  match env.results (audioUriOf env) with
  | none =>
    { events := [.progress 5, .progress 33, .progress 40, .progress 42, .progress 50,
                 .progress 55, .progress 75, .errorMsg noResultsMsg],
      convCalls := [convCallOf env],
      uploadCalls := [(gcsInputBucket, uniqueFilenameOf env)],
      submitCalls := [requestOf env],
      waitTimeoutSeconds := some 3600 }
  | some fileResultsUri =>
    match parseGsUri fileResultsUri with
    | none =>
      { events := [.progress 5, .progress 33, .progress 40, .progress 42, .progress 50,
                   .progress 55, .progress 75, .errorMsg badOutputUriMsg],
        convCalls := [convCallOf env],
        uploadCalls := [(gcsInputBucket, uniqueFilenameOf env)],
        submitCalls := [requestOf env],
        waitTimeoutSeconds := some 3600 }
    | some bo => downloadStage env bo

/-- src/main.py lines 205-208: emit 55, block on
`operation.result(timeout=3600)` until the job's terminal state or the
one-hour ceiling, emit 75 on success; a raised timeout or job failure
surfaces as the error signal and nothing further runs. -/
def waitStage (env : Env) : RunResult :=
  match env.jobOutcome with
  | .timedOut msg =>
    { events := [.progress 5, .progress 33, .progress 40, .progress 42, .progress 50,
                 .progress 55, .errorMsg msg],
      convCalls := [convCallOf env],
      uploadCalls := [(gcsInputBucket, uniqueFilenameOf env)],
      submitCalls := [requestOf env],
      waitTimeoutSeconds := some 3600 }
  | .failed msg =>
    { events := [.progress 5, .progress 33, .progress 40, .progress 42, .progress 50,
                 .progress 55, .errorMsg msg],
      convCalls := [convCallOf env],
      uploadCalls := [(gcsInputBucket, uniqueFilenameOf env)],
      submitCalls := [requestOf env],
      waitTimeoutSeconds := some 3600 }
  | .succeeded => resultStage env

/-- src/main.py lines 180-204: emit 40, pick the output object name and
emit 42, build the request and emit 50, call `batch_recognize`. -/
def submitStage (env : Env) : RunResult :=
  if env.submitOk = false then
    { events := [.progress 5, .progress 33, .progress 40, .progress 42, .progress 50,
                 .errorMsg env.submitErr],
      convCalls := [convCallOf env],
      uploadCalls := [(gcsInputBucket, uniqueFilenameOf env)],
      submitCalls := [requestOf env] }
  else waitStage env

/-- src/main.py lines 173-179: upload the converted waveform to the
input bucket under the unique object name. -/
def uploadStage (env : Env) : RunResult :=
  if env.uploadOk = false then
    { events := [.progress 5, .progress 33, .errorMsg env.uploadErr],
      convCalls := [convCallOf env],
      uploadCalls := [(gcsInputBucket, uniqueFilenameOf env)] }
  else submitStage env

/-- src/main.py lines 157-171: read the credential path, check it names
an existing file, load the credentials, and run the (vacuous, since the
bucket names are hardcoded literals) bucket check. -/
def credStage (env : Env) : RunResult :=
  match env.config.googleApplicationCredentials with
  | none =>
    { events := [.progress 5, .progress 33, .errorMsg missingCredMsg],
      convCalls := [convCallOf env] }
  | some credentialPath =>
    if credentialPath = "" ∨ env.credFileExists credentialPath = false then
      { events := [.progress 5, .progress 33, .errorMsg missingCredMsg],
        convCalls := [convCallOf env] }
    else if env.credLoadOk = false then
      { events := [.progress 5, .progress 33, .errorMsg env.credLoadErr],
        convCalls := [convCallOf env] }
    else if gcsInputBucket = "" ∨ gcsOutputBucket = "" then
      { events := [.progress 5, .progress 33, .errorMsg missingBucketMsg],
        convCalls := [convCallOf env] }
    else uploadStage env

/-- Shallow embedding of `Worker.run` (src/main.py lines 118-240),
stage for stage in source order: emit 5, classify the extension, run
the media engine, emit 33, then hand over to the credential stage and
the stages after it.  Every branch of every stage returns the literal
sequence of signals the source emits on that path together with the
collaborator calls made up to that point. -/
def runWorker (env : Env) : RunResult :=
  if ¬ (extOf env ∈ videoExtensions ∨ extOf env ∈ audioExtensions) then
    { events := [.progress 5, .errorMsg unsupportedMsg] }
  else if env.convOk = false then
    { events := [.progress 5, .errorMsg env.convErr],
      convCalls := [convCallOf env] }
  else credStage env

/-- The progress percentages among a list of emitted events, in order. -/
def progressOf (evs : List Event) : List Nat :=
  evs.filterMap (fun e => match e with | .progress n => some n | _ => none)

/-- The last emitted event. -/
def lastEvent : List Event → Option Event
  | [] => none
  | [e] => some e
  | _ :: e :: rest => lastEvent (e :: rest)

/-- Whether the run's final signal is the error signal. -/
def endsWithError (evs : List Event) : Bool :=
  match lastEvent evs with
  | some (.errorMsg _) => true
  | _ => false

/-- Whether the run's final signal is the finished signal. -/
def endsWithFinished (evs : List Event) : Bool :=
  match lastEvent evs with
  | some (.finishedMsg _) => true
  | _ => false

/-- The full progress sequence of a successful pipeline run. -/
def fullProgress : List Nat := [5, 33, 40, 42, 50, 55, 75, 90, 100]

/-- A segment's alternative #0 transcript (its highest-ranked one);
`""` when the segment has no alternatives. -/
def topTranscript (r : SpeechResult) : String :=
  match r.alternatives with
  | [] => ""
  | a :: _ => a.transcript

/-- The spec-side description of the final artifact: the concatenation,
in document order, of each segment's alternative #0 transcript followed
by a newline.  To be compared with the code-side `assembleTranscript`. -/
def joinedTranscript (rs : List SpeechResult) : String :=
  rs.foldr (fun r acc => topTranscript r ++ "\n" ++ acc) ""

/-- The credential path is absent, empty, or names no existing file —
exactly the condition of src/main.py line 159. -/
def credentialMissingB (env : Env) : Bool :=
  match env.config.googleApplicationCredentials with
  | none => true
  | some cp => cp == "" || !env.credFileExists cp

/-- The run gets past classification, conversion, the credential check,
credential loading, the upload and the submission, and so reaches the
wait on the recognition job. -/
def reachesWaitStage (env : Env) : Prop :=
  (extOf env ∈ videoExtensions ∨ extOf env ∈ audioExtensions) ∧
  env.convOk = true ∧
  (∃ cp, env.config.googleApplicationCredentials = some cp ∧ cp ≠ "" ∧
    env.credFileExists cp = true) ∧
  env.credLoadOk = true ∧ env.uploadOk = true ∧ env.submitOk = true

/-- The temporary-waveform bookkeeping a run must satisfy: the file is
removed exactly when the run ends in the finished signal. -/
def CleanupSpec (r : RunResult) : Prop :=
  r.tempFileRemoved = true ↔ endsWithFinished r.events = true

/-- The progress discipline a run must satisfy: it ends in the finished
or the error signal; a finished run emitted exactly `fullProgress`; a
failing run emitted a prefix of it (a proper one whenever the failure
strikes before the final tick; the cleanup removal at src/main.py
line 236 can fail after tick 100, whence the full sequence followed by
the error signal). -/
def ProgressSpec (r : RunResult) : Prop :=
  (endsWithFinished r.events = true ∨ endsWithError r.events = true) ∧
  (endsWithFinished r.events = true → progressOf r.events = fullProgress) ∧
  (endsWithError r.events = true →
    ∃ k, k ≤ 9 ∧ progressOf r.events = fullProgress.take k)

/-- A fully healthy environment: `talk.mp3` chosen, credentials at
`creds.json` resolving to project `proj`, configured containers
`my-input` / `my-output`, every collaborator succeeding, and a
two-segment results document. -/
def envBase : Env :=
  { inputFile := "talk.mp3",
    config := { googleApplicationCredentials := some "creds.json",
                gcsInputBucket := some "my-input",
                gcsOutputBucket := some "my-output" },
    credFileExists := fun _ => true,
    credLoadOk := true, credLoadErr := "",
    projectId := "proj",
    convOk := true, convErr := "", convChannels := 2,
    uploadOk := true, uploadErr := "",
    uuidUpload := "aaaa", uuidOutput := "bbbb",
    submitOk := true, submitErr := "",
    jobOutcome := .succeeded,
    results := fun _ => some "gs://speech_to_text_python/transcript-bbbb.json",
    downloadOk := true, downloadErr := "",
    parsed := some [{ alternatives := [{ transcript := "hello" }] },
                    { alternatives := [{ transcript := "world" }] }],
    parseErr := "",
    writeOk := true, writeErr := "",
    removeOk := true, removeErr := "" }

/-- Environment `envBase` with the credential variable unset. -/
def envNoCred : Env :=
  { envBase with
    config := { googleApplicationCredentials := none,
                gcsInputBucket := some "my-input",
                gcsOutputBucket := some "my-output" } }

/-- Environment `envNoCred` with an unsupported input extension. -/
def envNoCredBadExt : Env := { envNoCred with inputFile := "notes.xyz" }

/-- Environment `envBase` with an unsupported input extension. -/
def envBadExt : Env := { envBase with inputFile := "notes.xyz" }

/-- Environment `envBase` with a video input whose decoded waveform is 2-channel. -/
def envClip : Env := { envBase with inputFile := "clip.mp4" }

/-- Environment `envBase` with a recognition job that outlives the one-hour wait. -/
def envTimeout : Env :=
  { envBase with
    jobOutcome := .timedOut
      "Operation did not complete within the designated timeout of 3600 seconds." }

/-- Environment `envBase` with a reported output address that lacks the `gs://`
scheme and so does not match the `bucket/object` shape. -/
def envBadUri : Env :=
  { envBase with
    results := fun _ => some "speech_to_text_python/transcript-bbbb.json" }

/-- Environment `envBase` with a results document whose second segment has zero
alternatives. -/
def envEmptyAlt : Env :=
  { envBase with
    parsed := some [{ alternatives := [{ transcript := "hello" }] },
                    { alternatives := [] }] }

/-- Environment `envBase` with a temporary-waveform removal that
raises after the final write and the 100% tick. -/
def envRemoveFail : Env :=
  { envBase with removeOk := false,
                 removeErr := "[Errno 13] Permission denied: talk_temp.wav" }


theorem mk_append_mk (a b : List Char) :
    String.mk a ++ String.mk b = String.mk (a ++ b) := rfl

/-- Lemma that `os.path.splitext` loses nothing: base and extension reassemble to
the original path. -/
theorem splitext_append (p : String) :
    (splitext p).1 ++ (splitext p).2 = p := by
  rcases p with ⟨l⟩
  simp only [splitext]
  split
  · split
    · simp [mk_append_mk, List.take_append_drop]
    · simp
  · simp

/-- On a results document all of whose segments carry at least one
alternative, the worker's assembly loop succeeds and produces exactly
the newline-joined top alternatives. -/
theorem assembleTranscript_eq_joined (rs : List SpeechResult)
    (h : ∀ r ∈ rs, r.alternatives ≠ []) :
    assembleTranscript rs = some (joinedTranscript rs) := by
  induction rs with
  | nil => rfl
  | cons r rs ih =>
    have hr : r.alternatives ≠ [] := h r (List.mem_cons_self r rs)
    have ih2 := ih (fun x hx => h x (List.mem_cons_of_mem r hx))
    cases halt : r.alternatives with
    | nil => exact absurd halt hr
    | cons a as =>
      simp [assembleTranscript, halt, ih2, joinedTranscript, topTranscript]

/-- A segment without alternatives makes the assembly loop raise. -/
theorem assembleTranscript_eq_none (rs : List SpeechResult)
    (h : ∃ r ∈ rs, r.alternatives = []) :
    assembleTranscript rs = none := by
  induction rs with
  | nil => simp at h
  | cons r rs ih =>
    rcases h with ⟨x, hx, hempty⟩
    rcases List.mem_cons.mp hx with heq | hx2
    · subst heq; simp [assembleTranscript, hempty]
    · cases halt : r.alternatives with
      | nil => simp [assembleTranscript, halt]
      | cons a as => simp [assembleTranscript, halt, ih ⟨x, hx2, hempty⟩]

/-- With a usable credential path and loadable credentials, the
credential stage falls through to the upload stage. -/
theorem credStage_eq (env : Env) (cp : String)
    (hc : env.config.googleApplicationCredentials = some cp)
    (hbad : ¬ (cp = "" ∨ env.credFileExists cp = false))
    (hload : env.credLoadOk = true) :
    credStage env = uploadStage env := by
  simp [credStage, hc, hbad, hload, gcsInputBucket, gcsOutputBucket]

/-- Under `reachesWaitStage`, the whole front of the pipeline falls
through and the run is the wait stage's outcome. -/
theorem runWorker_eq_waitStage (env : Env) (h : reachesWaitStage env) :
    runWorker env = waitStage env := by
  obtain ⟨hext, hconv, ⟨cp, hcp, hne, hex⟩, hload, hup, hsub⟩ := h
  have hbad : ¬ (cp = "" ∨ env.credFileExists cp = false) := by
    rintro (h1 | h2)
    · exact hne h1
    · rw [hex] at h2; cases h2
  have h1 : runWorker env = credStage env := by simp [runWorker, hext, hconv]
  have h2 : credStage env = uploadStage env := credStage_eq env cp hcp hbad hload
  have h3 : uploadStage env = submitStage env := by simp [uploadStage, hup]
  have h4 : submitStage env = waitStage env := by simp [submitStage, hsub]
  rw [h1, h2, h3, h4]

/-- Every run that ends in the finished signal went through the entire
pipeline: its results document parsed, the assembly loop succeeded, the
write succeeded, and the run is the write stage's success outcome. -/
theorem finished_run (env : Env)
    (h : endsWithFinished (runWorker env).events = true) :
    ∃ bo rs t, env.parsed = some rs ∧ assembleTranscript rs = some t ∧
      env.writeOk = true ∧ env.removeOk = true ∧
      runWorker env = writeStage env bo t := by
  by_cases hext : extOf env ∈ videoExtensions ∨ extOf env ∈ audioExtensions
  · cases hconv : env.convOk with
    | false => simp [runWorker, hext, hconv, endsWithFinished, lastEvent] at h
    | true =>
      have he1 : runWorker env = credStage env := by simp [runWorker, hext, hconv]
      rw [he1] at h ⊢
      cases hc : env.config.googleApplicationCredentials with
      | none => simp [credStage, hc, endsWithFinished, lastEvent] at h
      | some cp =>
        by_cases hbad : cp = "" ∨ env.credFileExists cp = false
        · simp [credStage, hc, hbad, endsWithFinished, lastEvent] at h
        · cases hload : env.credLoadOk with
          | false => simp [credStage, hc, hbad, hload, endsWithFinished, lastEvent] at h
          | true =>
            have he2 : credStage env = uploadStage env := credStage_eq env cp hc hbad hload
            rw [he2] at h ⊢
            cases hup : env.uploadOk with
            | false => simp [uploadStage, hup, endsWithFinished, lastEvent] at h
            | true =>
              have he3 : uploadStage env = submitStage env := by simp [uploadStage, hup]
              rw [he3] at h ⊢
              cases hsub : env.submitOk with
              | false => simp [submitStage, hsub, endsWithFinished, lastEvent] at h
              | true =>
                have he4 : submitStage env = waitStage env := by simp [submitStage, hsub]
                rw [he4] at h ⊢
                cases hjob : env.jobOutcome with
                | timedOut msg => simp [waitStage, hjob, endsWithFinished, lastEvent] at h
                | failed msg => simp [waitStage, hjob, endsWithFinished, lastEvent] at h
                | succeeded =>
                  have he5 : waitStage env = resultStage env := by simp [waitStage, hjob]
                  rw [he5] at h ⊢
                  cases hres : env.results (audioUriOf env) with
                  | none => simp [resultStage, hres, endsWithFinished, lastEvent] at h
                  | some u =>
                    cases hpu : parseGsUri u with
                    | none => simp [resultStage, hres, hpu, endsWithFinished, lastEvent] at h
                    | some bo =>
                      have he6 : resultStage env = downloadStage env bo := by
                        simp [resultStage, hres, hpu]
                      rw [he6] at h ⊢
                      cases hd : env.downloadOk with
                      | false => simp [downloadStage, hd, endsWithFinished, lastEvent] at h
                      | true =>
                        cases hp : env.parsed with
                        | none => simp [downloadStage, hd, hp, endsWithFinished, lastEvent] at h
                        | some rs =>
                          cases ha : assembleTranscript rs with
                          | none =>
                            simp [downloadStage, hd, hp, ha, endsWithFinished, lastEvent] at h
                          | some t =>
                            have he7 : downloadStage env bo = writeStage env bo t := by
                              simp [downloadStage, hd, hp, ha]
                            rw [he7] at h ⊢
                            cases hw : env.writeOk with
                            | false => simp [writeStage, hw, endsWithFinished, lastEvent] at h
                            | true =>
                              cases hrm : env.removeOk with
                              | false =>
                                simp [writeStage, hw, hrm, endsWithFinished, lastEvent] at h
                              | true => exact ⟨bo, rs, t, rfl, ha, rfl, rfl, rfl⟩
  · simp [runWorker, hext, endsWithFinished, lastEvent] at h


theorem cleanup_writeStage (env : Env) (bo : String × String) (t : String) :
    CleanupSpec (writeStage env bo t) := by
  cases hw : env.writeOk <;> cases hrm : env.removeOk <;>
    simp [CleanupSpec, writeStage, hw, hrm, endsWithFinished, lastEvent]

theorem cleanup_downloadStage (env : Env) (bo : String × String) :
    CleanupSpec (downloadStage env bo) := by
  cases hd : env.downloadOk with
  | false => simp [CleanupSpec, downloadStage, hd, endsWithFinished, lastEvent]
  | true =>
    cases hp : env.parsed with
    | none => simp [CleanupSpec, downloadStage, hd, hp, endsWithFinished, lastEvent]
    | some rs =>
      cases ha : assembleTranscript rs with
      | none => simp [CleanupSpec, downloadStage, hd, hp, ha, endsWithFinished, lastEvent]
      | some t =>
        have he : downloadStage env bo = writeStage env bo t := by
          simp [downloadStage, hd, hp, ha]
        rw [he]
        exact cleanup_writeStage env bo t

theorem cleanup_resultStage (env : Env) : CleanupSpec (resultStage env) := by
  cases hr : env.results (audioUriOf env) with
  | none => simp [CleanupSpec, resultStage, hr, endsWithFinished, lastEvent]
  | some u =>
    cases hu : parseGsUri u with
    | none => simp [CleanupSpec, resultStage, hr, hu, endsWithFinished, lastEvent]
    | some bo =>
      have he : resultStage env = downloadStage env bo := by simp [resultStage, hr, hu]
      rw [he]
      exact cleanup_downloadStage env bo

theorem cleanup_waitStage (env : Env) : CleanupSpec (waitStage env) := by
  cases hj : env.jobOutcome with
  | succeeded =>
    have he : waitStage env = resultStage env := by simp [waitStage, hj]
    rw [he]
    exact cleanup_resultStage env
  | failed msg => simp [CleanupSpec, waitStage, hj, endsWithFinished, lastEvent]
  | timedOut msg => simp [CleanupSpec, waitStage, hj, endsWithFinished, lastEvent]

theorem cleanup_submitStage (env : Env) : CleanupSpec (submitStage env) := by
  cases hs : env.submitOk with
  | false => simp [CleanupSpec, submitStage, hs, endsWithFinished, lastEvent]
  | true =>
    have he : submitStage env = waitStage env := by simp [submitStage, hs]
    rw [he]
    exact cleanup_waitStage env

theorem cleanup_uploadStage (env : Env) : CleanupSpec (uploadStage env) := by
  cases hu : env.uploadOk with
  | false => simp [CleanupSpec, uploadStage, hu, endsWithFinished, lastEvent]
  | true =>
    have he : uploadStage env = submitStage env := by simp [uploadStage, hu]
    rw [he]
    exact cleanup_submitStage env

theorem cleanup_credStage (env : Env) : CleanupSpec (credStage env) := by
  cases hc : env.config.googleApplicationCredentials with
  | none => simp [CleanupSpec, credStage, hc, endsWithFinished, lastEvent]
  | some cp =>
    by_cases hbad : cp = "" ∨ env.credFileExists cp = false
    · simp [CleanupSpec, credStage, hc, hbad, endsWithFinished, lastEvent]
    · cases hl : env.credLoadOk with
      | false => simp [CleanupSpec, credStage, hc, hbad, hl, endsWithFinished, lastEvent]
      | true =>
        have he : credStage env = uploadStage env := credStage_eq env cp hc hbad hl
        rw [he]
        exact cleanup_uploadStage env

theorem cleanup_runWorker (env : Env) : CleanupSpec (runWorker env) := by
  by_cases hext : extOf env ∈ videoExtensions ∨ extOf env ∈ audioExtensions
  · cases hconv : env.convOk with
    | false => simp [CleanupSpec, runWorker, hext, hconv, endsWithFinished, lastEvent]
    | true =>
      have he : runWorker env = credStage env := by simp [runWorker, hext, hconv]
      rw [he]
      exact cleanup_credStage env
  · simp [CleanupSpec, runWorker, hext, endsWithFinished, lastEvent]

theorem convCalls_writeStage (env : Env) (bo : String × String) (t : String) :
    (writeStage env bo t).convCalls = [convCallOf env] := by
  cases hw : env.writeOk <;> cases hrm : env.removeOk <;> simp [writeStage, hw, hrm]

theorem convCalls_downloadStage (env : Env) (bo : String × String) :
    (downloadStage env bo).convCalls = [convCallOf env] := by
  cases hd : env.downloadOk with
  | false => simp [downloadStage, hd]
  | true =>
    cases hp : env.parsed with
    | none => simp [downloadStage, hd, hp]
    | some rs =>
      cases ha : assembleTranscript rs with
      | none => simp [downloadStage, hd, hp, ha]
      | some t => simp [downloadStage, hd, hp, ha, convCalls_writeStage]

theorem convCalls_resultStage (env : Env) :
    (resultStage env).convCalls = [convCallOf env] := by
  cases hr : env.results (audioUriOf env) with
  | none => simp [resultStage, hr]
  | some u =>
    cases hu : parseGsUri u with
    | none => simp [resultStage, hr, hu]
    | some bo => simp [resultStage, hr, hu, convCalls_downloadStage]

theorem convCalls_waitStage (env : Env) :
    (waitStage env).convCalls = [convCallOf env] := by
  cases hj : env.jobOutcome <;> simp [waitStage, hj, convCalls_resultStage]

theorem convCalls_submitStage (env : Env) :
    (submitStage env).convCalls = [convCallOf env] := by
  cases hs : env.submitOk <;> simp [submitStage, hs, convCalls_waitStage]

theorem convCalls_uploadStage (env : Env) :
    (uploadStage env).convCalls = [convCallOf env] := by
  cases hu : env.uploadOk <;> simp [uploadStage, hu, convCalls_submitStage]

theorem convCalls_credStage (env : Env) :
    (credStage env).convCalls = [convCallOf env] := by
  cases hc : env.config.googleApplicationCredentials with
  | none => simp [credStage, hc]
  | some cp =>
    by_cases hbad : cp = "" ∨ env.credFileExists cp = false
    · simp [credStage, hc, hbad]
    · cases hl : env.credLoadOk with
      | false => simp [credStage, hc, hbad, hl]
      | true =>
        rw [credStage_eq env cp hc hbad hl]
        exact convCalls_uploadStage env


theorem progress_writeStage (env : Env) (bo : String × String) (t : String) :
    ProgressSpec (writeStage env bo t) := by
  cases hw : env.writeOk with
  | false =>
    refine ⟨Or.inr ?_, fun h => absurd h ?_, fun _ => ⟨8, by norm_num, ?_⟩⟩ <;>
      simp [writeStage, hw, endsWithError, endsWithFinished, lastEvent,
            progressOf, fullProgress]
  | true =>
    cases hrm : env.removeOk with
    | false =>
      refine ⟨Or.inr ?_, fun h => absurd h ?_, fun _ => ⟨9, by norm_num, ?_⟩⟩ <;>
        simp [writeStage, hw, hrm, endsWithError, endsWithFinished, lastEvent,
              progressOf, fullProgress]
    | true =>
      refine ⟨Or.inl ?_, fun _ => ?_, fun h => absurd h ?_⟩ <;>
        simp [writeStage, hw, hrm, endsWithError, endsWithFinished, lastEvent,
              progressOf, fullProgress]

theorem progress_downloadStage (env : Env) (bo : String × String) :
    ProgressSpec (downloadStage env bo) := by
  cases hd : env.downloadOk with
  | false =>
    refine ⟨Or.inr ?_, fun h => absurd h ?_, fun _ => ⟨7, by norm_num, ?_⟩⟩ <;>
      simp [downloadStage, hd, endsWithError, endsWithFinished, lastEvent,
            progressOf, fullProgress]
  | true =>
    cases hp : env.parsed with
    | none =>
      refine ⟨Or.inr ?_, fun h => absurd h ?_, fun _ => ⟨7, by norm_num, ?_⟩⟩ <;>
        simp [downloadStage, hd, hp, endsWithError, endsWithFinished, lastEvent,
              progressOf, fullProgress]
    | some rs =>
      cases ha : assembleTranscript rs with
      | none =>
        refine ⟨Or.inr ?_, fun h => absurd h ?_, fun _ => ⟨7, by norm_num, ?_⟩⟩ <;>
          simp [downloadStage, hd, hp, ha, endsWithError, endsWithFinished, lastEvent,
                progressOf, fullProgress]
      | some t =>
        have he : downloadStage env bo = writeStage env bo t := by
          simp [downloadStage, hd, hp, ha]
        rw [he]
        exact progress_writeStage env bo t

theorem progress_resultStage (env : Env) : ProgressSpec (resultStage env) := by
  cases hr : env.results (audioUriOf env) with
  | none =>
    refine ⟨Or.inr ?_, fun h => absurd h ?_, fun _ => ⟨7, by norm_num, ?_⟩⟩ <;>
      simp [resultStage, hr, endsWithError, endsWithFinished, lastEvent,
            progressOf, fullProgress]
  | some u =>
    cases hu : parseGsUri u with
    | none =>
      refine ⟨Or.inr ?_, fun h => absurd h ?_, fun _ => ⟨7, by norm_num, ?_⟩⟩ <;>
        simp [resultStage, hr, hu, endsWithError, endsWithFinished, lastEvent,
              progressOf, fullProgress]
    | some bo =>
      have he : resultStage env = downloadStage env bo := by simp [resultStage, hr, hu]
      rw [he]
      exact progress_downloadStage env bo

theorem progress_waitStage (env : Env) : ProgressSpec (waitStage env) := by
  cases hj : env.jobOutcome with
  | succeeded =>
    have he : waitStage env = resultStage env := by simp [waitStage, hj]
    rw [he]
    exact progress_resultStage env
  | failed msg =>
    refine ⟨Or.inr ?_, fun h => absurd h ?_, fun _ => ⟨6, by norm_num, ?_⟩⟩ <;>
      simp [waitStage, hj, endsWithError, endsWithFinished, lastEvent,
            progressOf, fullProgress]
  | timedOut msg =>
    refine ⟨Or.inr ?_, fun h => absurd h ?_, fun _ => ⟨6, by norm_num, ?_⟩⟩ <;>
      simp [waitStage, hj, endsWithError, endsWithFinished, lastEvent,
            progressOf, fullProgress]

theorem progress_submitStage (env : Env) : ProgressSpec (submitStage env) := by
  cases hs : env.submitOk with
  | false =>
    refine ⟨Or.inr ?_, fun h => absurd h ?_, fun _ => ⟨5, by norm_num, ?_⟩⟩ <;>
      simp [submitStage, hs, endsWithError, endsWithFinished, lastEvent,
            progressOf, fullProgress]
  | true =>
    have he : submitStage env = waitStage env := by simp [submitStage, hs]
    rw [he]
    exact progress_waitStage env

theorem progress_uploadStage (env : Env) : ProgressSpec (uploadStage env) := by
  cases hu : env.uploadOk with
  | false =>
    refine ⟨Or.inr ?_, fun h => absurd h ?_, fun _ => ⟨2, by norm_num, ?_⟩⟩ <;>
      simp [uploadStage, hu, endsWithError, endsWithFinished, lastEvent,
            progressOf, fullProgress]
  | true =>
    have he : uploadStage env = submitStage env := by simp [uploadStage, hu]
    rw [he]
    exact progress_submitStage env

theorem progress_credStage (env : Env) : ProgressSpec (credStage env) := by
  cases hc : env.config.googleApplicationCredentials with
  | none =>
    refine ⟨Or.inr ?_, fun h => absurd h ?_, fun _ => ⟨2, by norm_num, ?_⟩⟩ <;>
      simp [credStage, hc, endsWithError, endsWithFinished, lastEvent,
            progressOf, fullProgress]
  | some cp =>
    by_cases hbad : cp = "" ∨ env.credFileExists cp = false
    · refine ⟨Or.inr ?_, fun h => absurd h ?_, fun _ => ⟨2, by norm_num, ?_⟩⟩ <;>
        simp [credStage, hc, hbad, endsWithError, endsWithFinished, lastEvent,
              progressOf, fullProgress]
    · cases hl : env.credLoadOk with
      | false =>
        refine ⟨Or.inr ?_, fun h => absurd h ?_, fun _ => ⟨2, by norm_num, ?_⟩⟩ <;>
          simp [credStage, hc, hbad, hl, endsWithError, endsWithFinished, lastEvent,
                progressOf, fullProgress]
      | true =>
        rw [credStage_eq env cp hc hbad hl]
        exact progress_uploadStage env

theorem progress_runWorker (env : Env) : ProgressSpec (runWorker env) := by
  by_cases hext : extOf env ∈ videoExtensions ∨ extOf env ∈ audioExtensions
  · cases hconv : env.convOk with
    | false =>
      refine ⟨Or.inr ?_, fun h => absurd h ?_, fun _ => ⟨1, by norm_num, ?_⟩⟩ <;>
        simp [runWorker, hext, hconv, endsWithError, endsWithFinished, lastEvent,
              progressOf, fullProgress]
    | true =>
      have he : runWorker env = credStage env := by simp [runWorker, hext, hconv]
      rw [he]
      exact progress_credStage env
  · refine ⟨Or.inr ?_, fun h => absurd h ?_, fun _ => ⟨1, by norm_num, ?_⟩⟩ <;>
      simp [runWorker, hext, endsWithError, endsWithFinished, lastEvent,
            progressOf, fullProgress]


/-- C1: the claim says the input container, output container, language
code and model used by the Job Submitter come from the resolved
configuration.  The code violates this: with containers `my-input` /
`my-output` resolved in the configuration, a successful run uploads to
the hardcoded literal bucket `speech_to_text_python` (src/main.py
lines 167-168) and submits a request whose output location, language
(`id-ID`) and model (`long`) are per-call literals as well. -/
theorem containers_and_model_hardcoded :
    envBase.config.gcsInputBucket = some "my-input" ∧
    envBase.config.gcsOutputBucket = some "my-output" ∧
    gcsInputBucket = "speech_to_text_python" ∧
    gcsOutputBucket = "speech_to_text_python" ∧
    gcsInputBucket ≠ "my-input" ∧
    gcsOutputBucket ≠ "my-output" ∧
    (runWorker envBase).uploadCalls = [(gcsInputBucket, "talk_temp.wav-aaaa.wav")] ∧
    (runWorker envBase).submitCalls =
      [{ recognizer := "projects/proj/locations/global/recognizers/_",
         autoDecoding := true,
         languageCodes := ["id-ID"],
         model := "long",
         fileUris := ["gs://speech_to_text_python/talk_temp.wav-aaaa.wav"],
         outputUri := "gs://speech_to_text_python/transcript-bbbb.json" }] ∧
    endsWithFinished (runWorker envBase).events = true := by decide

/-- C2: whenever the parsed results document's segments each carry at
least one alternative and the run finishes, the file written to the
output path (UTF-8, open mode `"w"`, per the `written` field's
semantics) is exactly the concatenation, in document order, of each
segment's alternative #0 transcript followed by a newline. -/
theorem transcript_written_is_joined_alternatives (env : Env)
    (rs : List SpeechResult)
    (hparsed : env.parsed = some rs)
    (hall : ∀ r ∈ rs, r.alternatives ≠ [])
    (hfin : endsWithFinished (runWorker env).events = true) :
    (runWorker env).written = some (outputPathOf env, joinedTranscript rs) := by
  obtain ⟨bo, rs2, t, hp2, ha2, hw, hrm, heq⟩ := finished_run env hfin
  rw [hparsed] at hp2
  obtain rfl : rs = rs2 := Option.some.inj hp2
  rw [assembleTranscript_eq_joined rs hall] at ha2
  obtain rfl : joinedTranscript rs = t := Option.some.inj ha2
  rw [heq]
  simp [writeStage, hw, hrm]

/-- C2 witness: on the healthy environment whose results document has
the segments `["hello", "world"]`, the written file is
`"hello\nworld\n"` at `talk.txt`. -/
theorem transcript_written_is_joined_alternatives_witness :
    (runWorker envBase).written = some ("talk.txt", "hello\nworld\n") := by
  have h := transcript_written_is_joined_alternatives envBase
    [{ alternatives := [{ transcript := "hello" }] },
     { alternatives := [{ transcript := "world" }] }]
    rfl (by decide) (by decide)
  exact h.trans (by decide)

/-- C3: every run ends in the finished or the error signal; a finished
run emits exactly the progress percentages 5, 33, 40, 42, 50, 55, 75,
90, 100 in that order, and a failing run emits a prefix of that
sequence (no tick after the failing stage) followed by the error
signal.  The prefix is proper on every failure before the final tick;
the one failure point past it — the temporary-file removal at
src/main.py line 236, inside the `try` — has already emitted the full
sequence, which the error signal then follows instead of finished. -/
theorem progress_sequence_spec (env : Env) :
    (endsWithFinished (runWorker env).events = true ∨
      endsWithError (runWorker env).events = true) ∧
    (endsWithFinished (runWorker env).events = true →
      progressOf (runWorker env).events = fullProgress) ∧
    (endsWithError (runWorker env).events = true →
      ∃ k, k ≤ 9 ∧ progressOf (runWorker env).events = fullProgress.take k) :=
  progress_runWorker env

/-- C3 witness: the healthy run emits the full sequence; the timed-out
run emits a proper prefix and ends in the error signal; the run whose
cleanup removal raises emits a prefix as well (there the full
sequence) before its error signal. -/
theorem progress_sequence_spec_witness :
    progressOf (runWorker envBase).events = fullProgress ∧
    (∃ k, k ≤ 9 ∧ progressOf (runWorker envTimeout).events = fullProgress.take k) ∧
    (∃ k, k ≤ 9 ∧ progressOf (runWorker envRemoveFail).events = fullProgress.take k) :=
  ⟨(progress_sequence_spec envBase).2.1 (by decide),
   (progress_sequence_spec envTimeout).2.2 (by decide),
   (progress_sequence_spec envRemoveFail).2.2 (by decide)⟩

/-- C4 counterexample: the claim quantifies over every run with an
absent credential path, but a run on an unsupported input extension
with the credential variable unset fails with the unsupported-format
error, not the missing-credential error (src/main.py emits the
credential error only after normalization, lines 157-161). -/
theorem missing_credential_claim_counterexample :
    envNoCredBadExt.config.googleApplicationCredentials = none ∧
    lastEvent (runWorker envNoCredBadExt).events =
      some (Event.errorMsg unsupportedMsg) ∧
    unsupportedMsg ≠ missingCredMsg ∧
    (runWorker envNoCredBadExt).uploadCalls = [] := by decide

/-- C4 (amended): in every run whose credential path is absent, empty,
or names no existing file, no upload is ever attempted; and if such a
run passes normalization (supported extension, successful conversion),
it fails with the missing-credential error. -/
theorem missing_credential_short_circuit (env : Env)
    (h : credentialMissingB env = true) :
    (runWorker env).uploadCalls = [] ∧
    ((extOf env ∈ videoExtensions ∨ extOf env ∈ audioExtensions) →
      env.convOk = true →
      lastEvent (runWorker env).events = some (Event.errorMsg missingCredMsg)) := by
  by_cases hext : extOf env ∈ videoExtensions ∨ extOf env ∈ audioExtensions
  · cases hconv : env.convOk with
    | false =>
      exact ⟨by simp [runWorker, hext, hconv],
        fun _ hc => absurd hc (by decide)⟩
    | true =>
      have he : runWorker env = credStage env := by simp [runWorker, hext, hconv]
      rw [he]
      unfold credentialMissingB at h
      cases hc : env.config.googleApplicationCredentials with
      | none =>
        refine ⟨?_, fun _ _ => ?_⟩ <;> simp [credStage, hc, lastEvent]
      | some cp =>
        rw [hc] at h
        simp only [Bool.or_eq_true, beq_iff_eq, Bool.not_eq_true'] at h
        refine ⟨?_, fun _ _ => ?_⟩ <;> simp [credStage, hc, h, lastEvent]
  · exact ⟨by simp [runWorker, hext], fun hx _ => absurd hx hext⟩

/-- C4 witness: with the credential variable unset on a supported
input, the run errors with the missing-credential message and the
object store is never touched. -/
theorem missing_credential_short_circuit_witness :
    (runWorker envNoCred).uploadCalls = [] ∧
    lastEvent (runWorker envNoCred).events = some (Event.errorMsg missingCredMsg) := by
  have h := missing_credential_short_circuit envNoCred (by decide)
  exact ⟨h.1, h.2 (by decide) rfl⟩

/-- C5: when the run reaches the result stage, a reported output
address that does not match the `gs://bucket/object` shape makes it
fail with the parse error and perform no download, while a matching
address makes the download use exactly the two parsed components. -/
theorem output_address_parse_spec (env : Env) (u : String)
    (hreach : reachesWaitStage env)
    (hjob : env.jobOutcome = JobOutcome.succeeded)
    (hres : env.results = fun _ => some u) :
    (parseGsUri u = none →
      lastEvent (runWorker env).events = some (Event.errorMsg badOutputUriMsg) ∧
      (runWorker env).downloadCalls = []) ∧
    (∀ b o, parseGsUri u = some (b, o) →
      (runWorker env).downloadCalls = [(b, o)]) := by
  rw [runWorker_eq_waitStage env hreach]
  rw [show waitStage env = resultStage env from by simp [waitStage, hjob]]
  have h3 : env.results (audioUriOf env) = some u := by rw [hres]
  constructor
  · intro hp
    constructor <;> simp [resultStage, h3, hp, lastEvent]
  · intro b o hp
    rw [show resultStage env = downloadStage env (b, o) from by simp [resultStage, h3, hp]]
    cases hd : env.downloadOk with
    | false => simp [downloadStage, hd]
    | true =>
      cases hpp : env.parsed with
      | none => simp [downloadStage, hd, hpp]
      | some rs =>
        cases ha : assembleTranscript rs with
        | none => simp [downloadStage, hd, hpp, ha]
        | some t =>
          cases hw : env.writeOk with
          | false => simp [downloadStage, writeStage, hd, hpp, ha, hw]
          | true =>
            cases hrm : env.removeOk <;>
              simp [downloadStage, writeStage, hd, hpp, ha, hw, hrm]

/-- C5 witness: the scheme-less address
`speech_to_text_python/transcript-bbbb.json` fails the parse and
triggers no download, while the healthy `gs://` address downloads
exactly its bucket/object pair. -/
theorem output_address_parse_spec_witness :
    lastEvent (runWorker envBadUri).events = some (Event.errorMsg badOutputUriMsg) ∧
    (runWorker envBadUri).downloadCalls = [] ∧
    (runWorker envBase).downloadCalls =
      [("speech_to_text_python", "transcript-bbbb.json")] := by
  have h1 := output_address_parse_spec envBadUri
    "speech_to_text_python/transcript-bbbb.json"
    ⟨by decide, rfl, ⟨"creds.json", rfl, by decide, rfl⟩, rfl, rfl, rfl⟩ rfl rfl
  have h2 := output_address_parse_spec envBase
    "gs://speech_to_text_python/transcript-bbbb.json"
    ⟨by decide, rfl, ⟨"creds.json", rfl, by decide, rfl⟩, rfl, rfl, rfl⟩ rfl rfl
  obtain ⟨ha, hb⟩ := h1.1 (by decide)
  exact ⟨ha, hb, h2.2 "speech_to_text_python" "transcript-bbbb.json" (by decide)⟩

/-- C6 counterexample: the claim says normalization of a supported
input produces a mono waveform, but the conversion call carries no
channel-count parameter (src/main.py lines 139-151), so the engine's
channel choice flows through unconstrained: on `clip.mp4` with a
2-channel decode the produced waveform has 2 channels, not 1, while
the run still succeeds end to end. -/
theorem normalize_mono_counterexample :
    (runWorker envClip).convCalls =
      [{ target := "clip_temp.wav", fps := 16000, codec := "pcm_s16le" }] ∧
    (convOutput envClip (convCallOf envClip)).sampleRate = 16000 ∧
    (convOutput envClip (convCallOf envClip)).channels = 2 ∧
    (convOutput envClip (convCallOf envClip)).channels ≠ 1 ∧
    endsWithFinished (runWorker envClip).events = true := by decide

/-- C6 (amended): for every supported (case-normalized) extension the
worker invokes the media engine exactly once, requesting a 16000 Hz
PCM (`pcm_s16le`) waveform at the derived temporary path
`base + "_temp.wav"`, and the produced file honours those requested
parameters while its channel count is whatever the engine produces
(mono is not requested); for any other extension the run emits only
the 5% tick and the unsupported-format error, invoking no collaborator
and creating no file. -/
theorem normalize_spec_amended (env : Env) :
    ((extOf env ∈ videoExtensions ∨ extOf env ∈ audioExtensions) →
      (runWorker env).convCalls = [convCallOf env] ∧
      convCallOf env = { target := (splitext env.inputFile).1 ++ "_temp.wav",
                         fps := 16000, codec := "pcm_s16le" } ∧
      convOutput env (convCallOf env) =
        { path := (splitext env.inputFile).1 ++ "_temp.wav", sampleRate := 16000,
          codec := "pcm_s16le", channels := env.convChannels }) ∧
    (¬ (extOf env ∈ videoExtensions ∨ extOf env ∈ audioExtensions) →
      runWorker env = { events := [Event.progress 5, Event.errorMsg unsupportedMsg] }) := by
  constructor
  · intro hext
    refine ⟨?_, rfl, rfl⟩
    cases hconv : env.convOk with
    | false => simp [runWorker, hext, hconv]
    | true => simp [runWorker, hext, hconv, convCalls_credStage]
  · intro hext
    simp [runWorker, hext]

/-- C6 witness: the supported input `clip.mp4` yields exactly the
16000 Hz `pcm_s16le` conversion call at `clip_temp.wav`; the
unsupported input `notes.xyz` yields only the unsupported-format
failure and no effects. -/
theorem normalize_spec_amended_witness :
    (runWorker envClip).convCalls =
      [{ target := "clip_temp.wav", fps := 16000, codec := "pcm_s16le" }] ∧
    runWorker envBadExt = { events := [Event.progress 5, Event.errorMsg unsupportedMsg] } := by
  constructor
  · have h := (normalize_spec_amended envClip).1 (by decide)
    rw [h.1, h.2.1]
    decide
  · exact (normalize_spec_amended envBadExt).2 (by decide)

/-- C7: the wait on the submitted job carries the fixed ceiling of
3600 seconds (one hour); when the job is not terminal within it the
run ends immediately in the error signal carrying the raised timeout
message, with no later tick, no download and no file write — the
remote job's eventual outcome is never inspected. -/
theorem job_timeout_spec (env : Env) (msg : String)
    (hreach : reachesWaitStage env)
    (hjob : env.jobOutcome = JobOutcome.timedOut msg) :
    (runWorker env).waitTimeoutSeconds = some 3600 ∧
    3600 = 60 * 60 ∧
    (runWorker env).events =
      [Event.progress 5, Event.progress 33, Event.progress 40, Event.progress 42,
        Event.progress 50, Event.progress 55, Event.errorMsg msg] ∧
    (runWorker env).downloadCalls = [] ∧
    (runWorker env).written = none := by
  rw [runWorker_eq_waitStage env hreach]
  simp [waitStage, hjob]

/-- C7 witness: the timed-out environment shows the 3600-second
ceiling and the absence of any later effect. -/
theorem job_timeout_spec_witness :
    (runWorker envTimeout).waitTimeoutSeconds = some 3600 ∧
    (runWorker envTimeout).downloadCalls = [] ∧
    (runWorker envTimeout).written = none := by
  have h := job_timeout_spec envTimeout
    "Operation did not complete within the designated timeout of 3600 seconds."
    ⟨by decide, rfl, ⟨"creds.json", rfl, by decide, rfl⟩, rfl, rfl, rfl⟩ rfl
  exact ⟨h.1, h.2.2.2.1, h.2.2.2.2⟩

/-- C8: the temporary waveform file is removed exactly on the runs
that end in the finished signal; on every failing run it is left in
place. -/
theorem temp_cleanup_iff_success (env : Env) :
    (runWorker env).tempFileRemoved = true ↔
      endsWithFinished (runWorker env).events = true :=
  cleanup_runWorker env

/-- C9: a results document containing a segment with zero alternatives
makes the run fail with the raised index error, and no transcript file
is written. -/
theorem empty_alternatives_fail_spec (env : Env) (u b o : String)
    (rs : List SpeechResult)
    (hreach : reachesWaitStage env)
    (hjob : env.jobOutcome = JobOutcome.succeeded)
    (hres : env.results = fun _ => some u)
    (hparse : parseGsUri u = some (b, o))
    (hdl : env.downloadOk = true)
    (hparsed : env.parsed = some rs)
    (hempty : ∃ r ∈ rs, r.alternatives = []) :
    lastEvent (runWorker env).events = some (Event.errorMsg indexErrorMsg) ∧
    (runWorker env).written = none := by
  rw [runWorker_eq_waitStage env hreach]
  rw [show waitStage env = resultStage env from by simp [waitStage, hjob]]
  have h3 : env.results (audioUriOf env) = some u := by rw [hres]
  rw [show resultStage env = downloadStage env (b, o) from by
    simp [resultStage, h3, hparse]]
  have ha := assembleTranscript_eq_none rs hempty
  constructor <;> simp [downloadStage, hdl, hparsed, ha, lastEvent]

/-- C9 witness: a two-segment document whose second segment has no
alternatives errors out with the index error and writes nothing. -/
theorem empty_alternatives_fail_spec_witness :
    lastEvent (runWorker envEmptyAlt).events = some (Event.errorMsg indexErrorMsg) ∧
    (runWorker envEmptyAlt).written = none :=
  empty_alternatives_fail_spec envEmptyAlt
    "gs://speech_to_text_python/transcript-bbbb.json"
    "speech_to_text_python" "transcript-bbbb.json"
    [{ alternatives := [{ transcript := "hello" }] }, { alternatives := [] }]
    ⟨by decide, rfl, ⟨"creds.json", rfl, by decide, rfl⟩, rfl, rfl, rfl⟩
    rfl rfl (by decide) rfl rfl (by decide)

/-- C10: every run that finishes wrote the transcript to the path
obtained by replacing the input file's extension with `.txt` (the
pre-extension part of the path, which reassembles with the extension
to the original input path, so the directory is unchanged); the write
opens the path in mode `"w"`, overwriting any existing file. -/
theorem output_path_spec (env : Env)
    (hfin : endsWithFinished (runWorker env).events = true) :
    (∃ t, (runWorker env).written =
      some ((splitext env.inputFile).1 ++ ".txt", t)) ∧
    (splitext env.inputFile).1 ++ (splitext env.inputFile).2 = env.inputFile := by
  obtain ⟨bo, rs, t, hp, ha, hw, hrm, heq⟩ := finished_run env hfin
  refine ⟨⟨t, ?_⟩, splitext_append env.inputFile⟩
  rw [heq]
  simp [writeStage, hw, hrm, outputPathOf, baseOf]

/-- C10 witness: the finished run on `talk.mp3` wrote to `talk.txt`. -/
theorem output_path_spec_witness :
    ∃ t, (runWorker envBase).written = some ("talk.txt", t) := by
  obtain ⟨⟨t, ht⟩, -⟩ := output_path_spec envBase (by decide)
  have hpath : (splitext envBase.inputFile).1 ++ ".txt" = "talk.txt" := by decide
  exact ⟨t, by rw [ht, hpath]⟩

end SpeechToText
